import Mathlib

/-!
Shallow embedding of the chart configuration and aggregation pipeline of
`dashboard_streamlit.py` (aviation safety dashboard).

Tables model pandas DataFrames: a column-name list plus rows of
(column, value) cells, where `Value.missing` stands for NaN / a missing
cell.  Chart configurations model the Python dicts built by
`render_chart_builder`; optional dict entries are modelled by `DVal`,
which distinguishes an absent key, a key stored with value `None`, and a
key stored with a string, because `dict.get(key, default)` returns the
stored `None` (not the default) when the key is present.

`prepare_chart_data` and `generate_chart` are translated branch by
branch from the source.  pandas `groupby` drops rows whose group key is
missing and sorts the group keys; `reset_index(name=...)` raises (caught
by the source's `except`, yielding `None`) when the new column name
collides with the group key, which the embedding models by returning
`none`.  The plotting collaborator (`plotly.express`) is out of scope
per the specification: `generate_chart` returns the parameter dictionary
it would pass to plotly as the chart specification.
-/

inductive Value where
  | str : String → Value
  | num : Rat → Value
  | missing : Value
deriving DecidableEq

/-- Strict lexicographic comparison of character lists by code point
(the order Python uses on strings). -/
def charListLtb : List Char → List Char → Bool
  | [], [] => false
  | [], _ :: _ => true
  | _ :: _, [] => false
  | a :: as, b :: bs =>
    if a.toNat < b.toNat then true
    else if b.toNat < a.toNat then false
    else charListLtb as bs

def strLeb (a b : String) : Bool := !(charListLtb b.toList a.toList)

/-- Rational addition computed through `mkRat` (equal to `+`, see
`ratAdd_eq`). -/
def ratAdd (a b : Rat) : Rat :=
  mkRat (a.num * (b.den : Int) + b.num * (a.den : Int)) (a.den * b.den)

/-- Sum of a list of rationals computed through `ratAdd` (equal to
`List.sum`, see `ratSum_eq`). -/
def ratSum (l : List Rat) : Rat := l.foldr ratAdd 0

/-- Boolean order on cell values used to model pandas' sorted group keys:
numbers below strings (group-key columns are homogeneous in practice). -/
def Value.leb (a b : Value) : Bool :=
  match a, b with
  | .missing, _ => true
  | _, .missing => false
  | .num x, .num y => decide (x ≤ y)
  | .num _, .str _ => true
  | .str _, .num _ => false
  | .str x, .str y => strLeb x y

def valLE (a b : Value) : Prop := Value.leb a b = true

instance : DecidableRel valLE := fun a b => instDecidableEqBool (Value.leb a b) true

def Value.toNum : Value → Option Rat
  | .num q => some q
  | _ => none

/-- One table row: an association list from column names to cell values. -/
abbrev Row : Type := List (String × Value)

/-- Reading a cell of a row; a column not stored in the row reads as NaN. -/
def Row.getCell (r : Row) (f : String) : Value :=
  match List.find? (fun p => p.1 == f) r with
  | some p => p.2
  | none => Value.missing

/-- A pandas DataFrame: a schema (column list) plus the rows. -/
structure Table where
  cols : List String
  rows : List Row
deriving DecidableEq

/-- Value of an optional dict entry: key absent, key stored with Python
`None`, or key stored with a string. -/
inductive DVal where
  | absent
  | nil
  | val (s : String)
deriving DecidableEq

/-- Python `config.get(key)` (no default). -/
def DVal.pyGet? : DVal → Option String
  | .absent => none
  | .nil => none
  | .val s => some s

/-- Python `config.get(key, default)`: the default fires only when the
key is absent; a stored `None` is returned as `None`. -/
def DVal.pyGet (v : DVal) (d : String) : Option String :=
  match v with
  | .absent => some d
  | .nil => none
  | .val s => some s

/-- Python truthiness of an optional-string value (`None` and the empty
string are falsy). -/
def optTruthy : Option String → Bool
  | none => false
  | some s => s != ""

/-- A chart configuration dict as built by `render_chart_builder`
(the presentation-layer `id` entry is omitted: it only keys the delete
button and never reaches the pipeline). -/
structure Config where
  chart_type : String
  x_field : String
  y_field : DVal
  aggregation : DVal
  color_field : DVal
  orientation : DVal
  title : String
deriving DecidableEq

/-- Static registry entry of one chart family (`CHART_TYPES` values). -/
structure ChartTypeDesc where
  label : String
  needs_y : Bool
  supports_orientation : Bool := false
  supports_markers : Bool := false
  supports_size : Bool := false
  y_label : Option String := none
  hierarchical : Bool := false
deriving DecidableEq

/-- The `CHART_TYPES` registry, in source order. -/
def CHART_TYPES : List (String × ChartTypeDesc) :=
  [("bar", { label := "Bar Chart", needs_y := true, supports_orientation := true }),
   ("line", { label := "Line Chart", needs_y := true, supports_markers := true }),
   ("scatter", { label := "Scatter Plot", needs_y := true, supports_size := true }),
   ("pie", { label := "Pie Chart", needs_y := true, y_label := some "Values" }),
   ("histogram", { label := "Histogram", needs_y := false }),
   ("box", { label := "Box Plot", needs_y := true }),
   ("violin", { label := "Violin Plot", needs_y := true }),
   ("area", { label := "Area Chart", needs_y := true }),
   ("funnel", { label := "Funnel Chart", needs_y := true }),
   ("sunburst", { label := "Sunburst Chart", needs_y := true, hierarchical := true }),
   ("treemap", { label := "Treemap", needs_y := true, hierarchical := true })]

def chartTypeKeys : List String := CHART_TYPES.map Prod.fst

def lookupChartType (ct : String) : Option ChartTypeDesc :=
  (List.find? (fun p => p.1 == ct) CHART_TYPES).map Prod.snd

def AGGREGATIONS : List String := ["count", "sum", "mean", "median", "min", "max"]

/-- The whole-column read `df[x]`. -/
def Table.col (df : Table) (x : String) : List Value :=
  df.rows.map (fun r => r.getCell x)

/-- The non-missing values of column `x`; pandas `groupby` keys range
over exactly these. -/
def presentVals (df : Table) (x : String) : List Value :=
  (df.col x).filter (fun v => v != Value.missing)

/-- Distinct group keys in ascending order (pandas `groupby` default
`sort=True`; rows with a missing key are dropped). -/
def groupKeys (df : Table) (x : String) : List Value :=
  List.insertionSort valLE (presentVals df x).dedup

/-- Rows of `df` falling in the group keyed by `k`. -/
def groupRows (df : Table) (x : String) (k : Value) : List Row :=
  df.rows.filter (fun r => r.getCell x == k)

/-- `df.groupby(x_field).size().reset_index(name='count')`. -/
def groupby_size (df : Table) (x : String) : Table :=
  { cols := [x, "count"],
    rows := (groupKeys df x).map (fun k =>
      [(x, k), ("count", Value.num ((groupRows df x k).length : Rat))]) }

/-- pandas reduction of the non-missing numeric values of one group
(the statistics skip NaN; `sum` of an all-missing group is 0, the other
statistics of an all-missing group are NaN). -/
def aggNums (agg : String) (vals : List Rat) : Value :=
  if agg = "sum" then .num (ratSum vals)
  else
    match vals with
    | [] => .missing
    | v :: vs =>
      if agg = "mean" then .num (ratSum vals / (vals.length : Rat))
      else if agg = "median" then
        let l := List.insertionSort (· ≤ ·) vals
        let n := l.length
        if n % 2 = 1 then .num (l.getD (n / 2) 0)
        else .num ((l.getD (n / 2 - 1) 0 + l.getD (n / 2) 0) / 2)
      else if agg = "min" then .num (vs.foldl min v)
      else if agg = "max" then .num (vs.foldl max v)
      else .missing

/-- `df.groupby(x)[y].agg(aggregation).reset_index()` (and the `median`
special case, which computes the same reduction). -/
def groupby_agg (df : Table) (x y agg : String) : Table :=
  { cols := [x, y],
    rows := (groupKeys df x).map (fun k =>
      [(x, k), (y, aggNums agg (((groupRows df x k).map (fun r => r.getCell y)).filterMap Value.toNum))]) }

/-- `prepare_chart_data(df, config)` from the source.  The Python
function mutates `config['y_field']` in the `count` branch, so the
embedding returns the (possibly updated) config next to the result;
the `try/except` that converts a pandas error into `None` is modelled
by the `none` result in the branches where pandas raises: a grouping or
target column absent from the schema (KeyError), and a
`reset_index` name collision (ValueError). -/
def prepare_chart_data (df : Table) (config : Config) : Option Table × Config :=
  let aggO := config.aggregation.pyGet "count"
  if aggO = some "none" ∨ config.chart_type = "scatter" ∨ config.chart_type = "histogram" then
    (some df, config)
  else if aggO = some "count" then
    if config.x_field ∈ df.cols ∧ config.x_field ≠ "count" then
      (some (groupby_size df config.x_field), { config with y_field := DVal.val "count" })
    else (none, config)
  else
    match config.y_field.pyGet? with
    | some y =>
      if y ≠ "" ∧ (aggO = some "sum" ∨ aggO = some "mean" ∨ aggO = some "median" ∨
          aggO = some "min" ∨ aggO = some "max") then
        if config.x_field ∈ df.cols ∧ y ∈ df.cols ∧ config.x_field ≠ y then
          (some (groupby_agg df config.x_field y (aggO.getD "")), config)
        else (none, config)
      else (some df, config)
    | none => (some df, config)

/-- The parameter dictionary `generate_chart` hands to the plotting
collaborator: the chart specification. -/
structure ChartSpec where
  title : String
  x : Option String := none
  y : Option String := none
  names : Option String := none
  values : Option String := none
  path : Option (List String) := none
  color : Option String := none
  orientation : Option String := none
deriving DecidableEq

inductive ChartResult where
  | chart : ChartSpec → ChartResult
  | warning : String → ChartResult
  | error : String → ChartResult
deriving DecidableEq

/-- The parameter-building steps of `generate_chart` (lines 147-168 of
the source): the family-specific entries, then the optional color and
orientation entries. -/
def buildSpec (config : Config) : ChartSpec :=
  let base : ChartSpec := { title := config.title }
  let s1 : ChartSpec :=
    if config.chart_type = "pie" ∨ config.chart_type = "sunburst" ∨
        config.chart_type = "treemap" then
      let s0 : ChartSpec :=
        { base with values := config.y_field.pyGet "count", names := some config.x_field }
      if config.chart_type = "sunburst" ∨ config.chart_type = "treemap" then
        { s0 with path := some [config.x_field], names := none }
      else s0
    else
      { base with x := some config.x_field,
                  y := if optTruthy config.y_field.pyGet? then config.y_field.pyGet? else none }
  let s2 : ChartSpec :=
    if optTruthy config.color_field.pyGet? then { s1 with color := config.color_field.pyGet? }
    else s1
  if optTruthy config.orientation.pyGet? then { s2 with orientation := config.orientation.pyGet? }
  else s2

/-- `generate_chart(df, config)` from the source.  `df is None or
len(df) == 0` surfaces the warning; `getattr(px, chart_type)` on a name
outside the registry is the caught-`AttributeError` path (the
specification's chart-type enum); otherwise the parameter dict is built
exactly as in the source and returned as the specification (the
`px_func(df, **params)` draw call is the out-of-scope collaborator). -/
def generate_chart (df : Option Table) (config : Config) : ChartResult :=
  match df with
  | none => .warning "No data available for this chart configuration."
  | some t =>
    if t.rows.length = 0 then .warning "No data available for this chart configuration."
    else if config.chart_type ∈ chartTypeKeys then .chart (buildSpec config)
    else .error "Chart generation error"

/-- One iteration of `render_custom_charts`: the aggregation step
receives copies of the table and the config, and the original config is
handed to `generate_chart`. -/
def render_one (df : Table) (c : Config) : ChartResult :=
  generate_chart (prepare_chart_data df c).1 c

/-- `get_numeric_fields` (the source ignores both arguments). -/
def get_numeric_fields (_df : Table) (_is_enhanced : Bool) : List String :=
  ["year", "month", "fatalities_num"]

def base_categorical : List String :=
  ["type", "aircraft_category", "operator", "location", "damage", "damage_full", "type_code"]

def enhanced_categorical : List String :=
  ["phase", "nature", "departure_airport", "destination_airport", "category", "engine_model"]

/-- `get_categorical_fields` (enhanced fields only when present and not
all null). -/
def get_categorical_fields (df : Table) (is_enhanced : Bool) : List String :=
  if is_enhanced then
    base_categorical ++ enhanced_categorical.filter
      (fun f => decide (f ∈ df.cols) && df.rows.any (fun r => r.getCell f != Value.missing))
  else base_categorical

/-- The configuration dict assembled by `render_chart_builder` for given
widget selections: `ySel` is the y-axis selectbox value, `aggSel` the
aggregation selectbox value, `colorSel` the advanced color selectbox
value (the sentinel string is `None`), `orientSel` the orientation
radio value. -/
def build_chart_config (df : Table) (is_enhanced : Bool)
    (title ct x_field ySel aggSel : String) (showAdv : Bool)
    (colorSel orientSel : String) : Config :=
  let desc := (lookupChartType ct).getD { label := "", needs_y := false }
  let yTruthy : Bool := desc.needs_y && (ySel != "")
  let aggregation : String :=
    if decide (x_field ∈ get_categorical_fields df is_enhanced) && yTruthy then aggSel
    else if ct = "histogram" then "none"
    else "count"
  { chart_type := ct,
    x_field := x_field,
    y_field := if desc.needs_y then DVal.val ySel else DVal.nil,
    aggregation := DVal.val aggregation,
    color_field :=
      if showAdv then (if colorSel = "None" then DVal.nil else DVal.val colorSel) else DVal.nil,
    orientation :=
      if showAdv && desc.supports_orientation then
        DVal.val (if orientSel = "Horizontal" then "h" else "v")
      else DVal.nil,
    title := title }

/-- Permissive numeric coercion of `pd.to_numeric(..., errors='coerce')`
restricted to plain decimal notation: optional surrounding blanks, an
optional sign, digits with at most one decimal point. -/
def parseDigitsAux (cs : List Char) (acc : Nat) : Option Nat :=
  match cs with
  | [] => some acc
  | c :: rest => if c.isDigit then parseDigitsAux rest (acc * 10 + (c.toNat - 48)) else none

def parseUnsigned (cs : List Char) : Option Rat :=
  match cs.span (fun c => c != '.') with
  | (ip, []) =>
    if ip.isEmpty then none else (parseDigitsAux ip 0).map (fun n => (n : Rat))
  | (ip, _ :: frac) =>
    if ip.isEmpty && frac.isEmpty then none
    else
      match parseDigitsAux ip 0, parseDigitsAux frac 0 with
      | some i, some f => some (mkRat (Int.ofNat (i * Nat.pow 10 frac.length + f)) (Nat.pow 10 frac.length))
      | _, _ => none

def parseNumber (s : String) : Option Rat :=
  let cs := ((s.toList.dropWhile (fun c => c == ' ')).reverse.dropWhile (fun c => c == ' ')).reverse
  match cs with
  | '-' :: rest => (parseUnsigned rest).map (fun q => -q)
  | '+' :: rest => parseUnsigned rest
  | _ => parseUnsigned cs

/-- `pd.to_numeric(df['fatalities'], errors='coerce').fillna(0)` applied
to one cell: total, never raising; unparseable and missing become 0. -/
def to_numeric_fillna0 (v : Value) : Rat :=
  match v with
  | .num q => q
  | .missing => 0
  | .str s => (parseNumber s).getD 0

/-- The `load_data` step `df['fatalities_num'] = ...`. -/
def add_fatalities_num (df : Table) : Table :=
  { cols := df.cols ++ ["fatalities_num"],
    rows := df.rows.map (fun r =>
      r ++ [("fatalities_num", Value.num (to_numeric_fillna0 (r.getCell "fatalities")))]) }

/-- The fixed `damage_map` dictionary of `load_data`. -/
def damage_map (s : String) : Option String :=
  if s = "w/o" then some "Written off"
  else if s = "sub" then some "Substantial"
  else if s = "min" then some "Minor"
  else if s = "non" then some "None"
  else if s = "" then some "Unknown"
  else none

/-- `df['damage'].map(damage_map).fillna('Unknown')` applied to one
cell: a code outside the dictionary, a non-string cell, and NaN all
land on the fillna value. -/
def damage_full (v : Value) : String :=
  match v with
  | .str s => (damage_map s).getD "Unknown"
  | _ => "Unknown"

/-- Numeric sum of the `count` column of a table (missing and
non-numeric cells contribute 0). -/
def countColSum (t : Table) : Rat :=
  ratSum (t.rows.map (fun r =>
    match r.getCell "count" with
    | .num q => q
    | _ => 0))

/-- The record table of spec Examples 1 and 2. -/
def exTable : Table :=
  { cols := ["aircraft_category", "fatalities"],
    rows := [[("aircraft_category", Value.str "ATR 72-600"), ("fatalities", Value.str "0")],
             [("aircraft_category", Value.str "ATR 72-600"), ("fatalities", Value.str "5")],
             [("aircraft_category", Value.str "Dash 8-400"), ("fatalities", Value.str "")]] }

def exCfgSum : Config :=
  { chart_type := "bar", x_field := "aircraft_category", y_field := DVal.val "fatalities_num",
    aggregation := DVal.val "sum", color_field := DVal.nil, orientation := DVal.nil,
    title := "Fatalities by category" }

def exCfgCount : Config :=
  { exCfgSum with aggregation := DVal.val "count", title := "Accidents by category" }

/-- A table whose single row has a missing group-key cell (e.g. the
`year` column of an unparseable date). -/
def cTable1 : Table :=
  { cols := ["year", "fatalities_num"],
    rows := [[("year", Value.missing), ("fatalities_num", Value.num 3)]] }

def cCfg1 : Config :=
  { chart_type := "bar", x_field := "year", y_field := DVal.val "fatalities_num",
    aggregation := DVal.val "count", color_field := DVal.nil, orientation := DVal.nil,
    title := "Count by year" }

def cTable2 : Table :=
  { cols := ["operator"], rows := [[("operator", Value.str "A")]] }

/-- A bar configuration (needs a y-field) whose `y_field` is `None`. -/
def cCfg2 : Config :=
  { chart_type := "bar", x_field := "operator", y_field := DVal.nil,
    aggregation := DVal.val "count", color_field := DVal.nil, orientation := DVal.nil,
    title := "Bar without y" }

def cTable3 : Table :=
  { cols := ["operator", "fatalities_num"],
    rows := [[("operator", Value.str "A"), ("fatalities_num", Value.num 2)]] }

/-- A sunburst configuration with `aggregation = 'none'`. -/
def cCfg3 : Config :=
  { chart_type := "sunburst", x_field := "operator", y_field := DVal.val "fatalities_num",
    aggregation := DVal.val "none", color_field := DVal.nil, orientation := DVal.nil,
    title := "Sunburst raw" }

def cfgPie : Config :=
  { chart_type := "pie", x_field := "operator", y_field := DVal.val "fatalities_num",
    aggregation := DVal.val "sum", color_field := DVal.nil, orientation := DVal.nil,
    title := "Pie" }

def cfgScatter : Config :=
  { chart_type := "scatter", x_field := "operator", y_field := DVal.val "fatalities_num",
    aggregation := DVal.val "mean", color_field := DVal.nil, orientation := DVal.nil,
    title := "Scatter" }

/-- `ratAdd` agrees with rational addition. -/
theorem ratAdd_eq (a b : Rat) : ratAdd a b = a + b := by
  unfold ratAdd
  have ha : ((a.den : Rat)) ≠ 0 := by
    exact_mod_cast a.den_nz
  have hb : ((b.den : Rat)) ≠ 0 := by
    exact_mod_cast b.den_nz
  rw [Rat.mkRat_eq_div]
  conv_rhs => rw [← Rat.num_div_den a, ← Rat.num_div_den b]
  rw [div_add_div _ _ ha hb]
  push_cast
  ring_nf

/-- `ratSum` agrees with `List.sum`. -/
theorem ratSum_eq (l : List Rat) : ratSum l = l.sum := by
  induction l with
  | nil => rfl
  | cons x xs ih => simp [ratSum, List.foldr_cons, ratAdd_eq] at ih ⊢; rw [ih]

/-- Claim C4: for every chart configuration, an empty (zero-row) or
missing input table makes `generate_chart` produce no chart
specification and surface the diagnostic
"No data available for this chart configuration.". -/
theorem c4_empty_or_missing_table (c : Config) (t : Table) (h : t.rows = []) :
    generate_chart none c = ChartResult.warning "No data available for this chart configuration." ∧
    generate_chart (some t) c = ChartResult.warning "No data available for this chart configuration." := by
  constructor
  · rfl
  · simp [generate_chart, h]

theorem c4_witness :
    generate_chart none exCfgCount
      = ChartResult.warning "No data available for this chart configuration." ∧
    generate_chart (some { cols := ["operator"], rows := [] }) exCfgCount
      = ChartResult.warning "No data available for this chart configuration." :=
  c4_empty_or_missing_table exCfgCount { cols := ["operator"], rows := [] } rfl

/-- Claim C10: for every configuration whose chart type is scatter or
histogram, `prepare_chart_data` returns the input table unchanged (and
the configuration untouched) regardless of the aggregation value. -/
theorem c10_scatter_histogram_passthrough (df : Table) (c : Config)
    (h : c.chart_type = "scatter" ∨ c.chart_type = "histogram") :
    prepare_chart_data df c = (some df, c) := by
  unfold prepare_chart_data
  rcases h with h | h <;> simp [h]

theorem c10_witness : prepare_chart_data cTable3 cfgScatter = (some cTable3, cfgScatter) :=
  c10_scatter_histogram_passthrough cTable3 cfgScatter (Or.inl rfl)

/-- Claim C8: `damage_full` realises the fixed code-to-label mapping,
sends every code outside the mapping (and every non-string cell) to
"Unknown", and always lands in the five-label set. -/
theorem c8_damage_mapping (s : String) (v : Value) :
    damage_full (Value.str "w/o") = "Written off" ∧
    damage_full (Value.str "sub") = "Substantial" ∧
    damage_full (Value.str "min") = "Minor" ∧
    damage_full (Value.str "non") = "None" ∧
    damage_full (Value.str "") = "Unknown" ∧
    (damage_map s = none → damage_full (Value.str s) = "Unknown") ∧
    damage_full v ∈ ["Written off", "Substantial", "Minor", "None", "Unknown"] := by
  refine ⟨by decide, by decide, by decide, by decide, by decide, ?_, ?_⟩
  · intro h
    simp [damage_full, h]
  · cases v with
    | str t =>
      simp only [damage_full]
      unfold damage_map
      split_ifs <;> simp
    | num q => simp [damage_full]
    | missing => simp [damage_full]

theorem c8_witness : damage_full (Value.str "xyz") = "Unknown" :=
  (c8_damage_mapping "xyz" Value.missing).2.2.2.2.2.1 (by decide)

/-- Claim C6: the fatalities coercion is total: a string the numeric
parser accepts coerces to its numeric value, a non-numeric or empty
string (and a missing cell) coerces to 0; on the table of spec
Example 2, the grouped sum of `fatalities_num` yields
ATR 72-600 maps to 5 and Dash 8-400 maps to 0. -/
theorem c6_fatalities_coercion (s : String) (q : Rat) :
    (parseNumber s = some q → to_numeric_fillna0 (Value.str s) = q) ∧
    (parseNumber s = none → to_numeric_fillna0 (Value.str s) = 0) ∧
    to_numeric_fillna0 Value.missing = 0 ∧
    (prepare_chart_data (add_fatalities_num exTable) exCfgSum).1 =
      some { cols := ["aircraft_category", "fatalities_num"],
             rows := [[("aircraft_category", Value.str "ATR 72-600"), ("fatalities_num", Value.num 5)],
                      [("aircraft_category", Value.str "Dash 8-400"), ("fatalities_num", Value.num 0)]] } := by
  refine ⟨?_, ?_, rfl, by decide⟩
  · intro h
    simp [to_numeric_fillna0, h]
  · intro h
    simp [to_numeric_fillna0, h]

theorem c6_witness :
    to_numeric_fillna0 (Value.str "5") = 5 ∧ to_numeric_fillna0 (Value.str "n/a") = 0 :=
  ⟨(c6_fatalities_coercion "5" 5).1 (by decide),
   (c6_fatalities_coercion "n/a" 0).2.1 (by decide)⟩

/-- Claim C7: the aggregation engine is deterministic and stateless:
re-running `prepare_chart_data` on the same table with the configuration
object as the first run left it (the `count` branch mutates it)
reproduces the first run's output exactly. -/
theorem c7_idempotent (df : Table) (c : Config) :
    prepare_chart_data df (prepare_chart_data df c).2 = prepare_chart_data df c := by
  by_cases hsc : c.chart_type = "scatter"
  · simp [prepare_chart_data, hsc]
  by_cases hhi : c.chart_type = "histogram"
  · simp [prepare_chart_data, hhi]
  by_cases hno : c.aggregation.pyGet "count" = some "none"
  · simp [prepare_chart_data, hno]
  by_cases hco : c.aggregation.pyGet "count" = some "count"
  · by_cases h3 : (c.x_field ∈ df.cols ∧ c.x_field ≠ "count")
    · have hinner : (prepare_chart_data df c).2 = { c with y_field := DVal.val "count" } := by
        simp [prepare_chart_data, hsc, hhi, hno, hco, h3]
      rw [hinner]
      simp [prepare_chart_data, hsc, hhi, hno, hco, h3]
    · have hinner : (prepare_chart_data df c).2 = c := by
        simp [prepare_chart_data, hsc, hhi, hno, hco, h3]
      rw [hinner]
  · have hinner : (prepare_chart_data df c).2 = c := by
      unfold prepare_chart_data
      simp only [hsc, hhi, hno, hco]
      cases hy : c.y_field.pyGet? with
      | none => simp [hy]
      | some y => simp [hy]; split_ifs <;> simp
    rw [hinner]

/-- Claim C9: with `aggregation = count` (explicit or defaulted) and a
chart type outside scatter/histogram, a successful `prepare_chart_data`
run rewrites the configuration's `y_field` entry to `'count'` — a real
mutation whenever `y_field` held anything else; the caller in
`render_custom_charts` only keeps its configuration intact by passing a
copy. -/
theorem c9_count_mutates_config (df : Table) (c : Config)
    (hagg : c.aggregation.pyGet "count" = some "count")
    (hs : c.chart_type ≠ "scatter") (hh : c.chart_type ≠ "histogram")
    (hx : c.x_field ∈ df.cols) (hxc : c.x_field ≠ "count") :
    (prepare_chart_data df c).2 = { c with y_field := DVal.val "count" } ∧
    (c.y_field ≠ DVal.val "count" → (prepare_chart_data df c).2 ≠ c) := by
  have h1 : ¬(c.aggregation.pyGet "count" = some "none" ∨ c.chart_type = "scatter" ∨
      c.chart_type = "histogram") := by
    simp [hagg, hs, hh]
  have hmut : (prepare_chart_data df c).2 = { c with y_field := DVal.val "count" } := by
    simp [prepare_chart_data, h1, hagg, hx, hxc, hs, hh]
  refine ⟨hmut, fun hy hc => hy ?_⟩
  rw [hmut] at hc
  have := congrArg Config.y_field hc
  simpa using this.symm

theorem c9_witness :
    (prepare_chart_data exTable exCfgCount).2 = { exCfgCount with y_field := DVal.val "count" } ∧
    (exCfgCount.y_field ≠ DVal.val "count" →
      (prepare_chart_data exTable exCfgCount).2 ≠ exCfgCount) :=
  c9_count_mutates_config exTable exCfgCount (by decide) (by decide) (by decide)
    (by decide) (by decide)

/-- Reading the `count` cell of a produced group row. -/
theorem getCell_pair_count (x : String) (hx : x ≠ "count") (k v : Value) :
    Row.getCell [(x, k), ("count", v)] "count" = v := by
  unfold Row.getCell
  rw [List.find?_cons_of_neg, List.find?_cons_of_pos]
  · simp
  · simp [hx]

/-- The size of one group equals the multiplicity of its key among the
present values of the grouping column. -/
theorem grouplen_eq_count (df : Table) (x : String) (k : Value) (hk : k ≠ Value.missing) :
    (groupRows df x k).length = (presentVals df x).count k := by
  unfold groupRows presentVals Table.col
  rw [← List.countP_eq_length_filter, List.count_eq_countP, List.countP_filter, List.countP_map]
  apply List.countP_congr
  intro r _
  cases h : (r.getCell x == k) with
  | true =>
    have : r.getCell x = k := eq_of_beq h
    simp [Function.comp, this, hk]
  | false => simp [Function.comp, h]

/-- Summing the `count` column of `groupby_size` counts every row whose
group key is present. -/
theorem countColSum_groupby_size (df : Table) (x : String) (hx : x ≠ "count") :
    countColSum (groupby_size df x) = ((presentVals df x).length : Rat) := by
  unfold countColSum groupby_size
  rw [ratSum_eq, List.map_map]
  have hmap : ((groupKeys df x).map
      ((fun r : Row => match r.getCell "count" with | .num q => q | _ => 0) ∘
        (fun k => [(x, k), ("count", Value.num ((groupRows df x k).length : Rat))]))) =
      (groupKeys df x).map (fun k => (((groupRows df x k).length : Nat) : Rat)) := by
    apply List.map_congr_left
    intro k _
    simp only [Function.comp]
    rw [getCell_pair_count x hx]
  rw [hmap]
  have hmap2 : ((groupKeys df x).map (fun k => (((groupRows df x k).length : Nat) : Rat))) =
      ((groupKeys df x).map (fun k => (groupRows df x k).length)).map (fun n : Nat => (n : Rat)) := by
    rw [List.map_map]
    rfl
  rw [hmap2, ← Nat.cast_list_sum]
  congr 1
  have hperm : List.Perm (groupKeys df x) (presentVals df x).dedup :=
    List.perm_insertionSort valLE (presentVals df x).dedup
  rw [(hperm.map (fun k => (groupRows df x k).length)).sum_eq]
  have hcongr : ((presentVals df x).dedup.map (fun k => (groupRows df x k).length)) =
      ((presentVals df x).dedup.map (fun k => (presentVals df x).count k)) := by
    apply List.map_congr_left
    intro k hk
    apply grouplen_eq_count
    have hkmem : k ∈ presentVals df x := List.mem_dedup.mp hk
    have := List.of_mem_filter hkmem
    simpa using this
  rw [hcongr]
  exact List.sum_map_count_dedup_eq_length _

/-- Claim C1 (amended): with `aggregation = count` and a chart type
outside scatter/histogram, and a group key that is a real column not
itself named `count`, `prepare_chart_data` groups by `x_field`, emits
one `(group_key, count)` row per distinct present key with the value
column named `count`, and the sum of the count column equals the number
of rows whose `x_field` cell is present — hence the full row count of
the input table whenever no `x_field` cell is missing (pandas `groupby`
drops rows with a missing key). -/
theorem c1_count_sums_to_present_rows (df : Table) (c : Config)
    (hx : c.x_field ∈ df.cols) (hxc : c.x_field ≠ "count")
    (hagg : c.aggregation.pyGet "count" = some "count")
    (hs : c.chart_type ≠ "scatter") (hh : c.chart_type ≠ "histogram") :
    (prepare_chart_data df c).1 = some (groupby_size df c.x_field) ∧
    (groupby_size df c.x_field).cols = [c.x_field, "count"] ∧
    (groupby_size df c.x_field).rows.length = (presentVals df c.x_field).dedup.length ∧
    (∀ r ∈ (groupby_size df c.x_field).rows, ∃ k n,
      r = [(c.x_field, k), ("count", Value.num ((n : Nat) : Rat))]) ∧
    countColSum (groupby_size df c.x_field) = ((presentVals df c.x_field).length : Rat) ∧
    ((∀ r ∈ df.rows, r.getCell c.x_field ≠ Value.missing) →
      countColSum (groupby_size df c.x_field) = (df.rows.length : Rat)) := by
  refine ⟨?_, rfl, ?_, ?_, countColSum_groupby_size df c.x_field hxc, ?_⟩
  · have h1 : ¬(c.aggregation.pyGet "count" = some "none" ∨ c.chart_type = "scatter" ∨
        c.chart_type = "histogram") := by
      simp [hagg, hs, hh]
    simp [prepare_chart_data, h1, hagg, hx, hxc, hs, hh]
  · unfold groupby_size groupKeys
    simp [List.length_insertionSort]
  · intro r hr
    unfold groupby_size at hr
    simp only [List.mem_map] at hr
    obtain ⟨k, _, hk⟩ := hr
    exact ⟨k, (groupRows df c.x_field k).length, hk.symm⟩
  · intro hall
    rw [countColSum_groupby_size df c.x_field hxc]
    have : presentVals df c.x_field = df.col c.x_field := by
      unfold presentVals
      apply List.filter_eq_self.mpr
      intro v hv
      unfold Table.col at hv
      simp only [List.mem_map] at hv
      obtain ⟨r, hrmem, hrv⟩ := hv
      simpa [hrv.symm] using hall r hrmem
    rw [this]
    unfold Table.col
    rw [List.length_map]

theorem c1_witness :
    (prepare_chart_data exTable exCfgCount).1 = some (groupby_size exTable "aircraft_category") ∧
    countColSum (groupby_size exTable "aircraft_category") =
      ((presentVals exTable "aircraft_category").length : Rat) ∧
    countColSum (groupby_size exTable "aircraft_category") = ((exTable.rows.length : Nat) : Rat) := by
  have h := c1_count_sums_to_present_rows exTable exCfgCount (by decide) (by decide)
    (by decide) (by decide) (by decide)
  exact ⟨h.1, h.2.2.2.2.1, h.2.2.2.2.2 (by decide)⟩

/-- Claim C1 as frozen is false: on a table whose single row has a
missing `year` cell, the count aggregation outputs an empty table, so
the output count column sums to 0 while the input table has 1 row. -/
theorem c1_counterexample :
    (prepare_chart_data cTable1 cCfg1).1 = some { cols := ["year", "count"], rows := [] } ∧
    countColSum { cols := ["year", "count"], rows := [] } ≠ ((cTable1.rows.length : Nat) : Rat) := by
  exact ⟨by decide, by decide⟩

/-- Claim C2 as frozen is false: no validation exists; on a one-row
table, a bar configuration (a y-requiring chart type) whose `y_field`
is `None` still yields a chart specification (with the y parameter
simply omitted). -/
theorem c2_counterexample :
    render_one cTable2 cCfg2 =
      ChartResult.chart { title := "Bar without y", x := some "operator" } := by
  decide

/-- Claim C2 (amended): the absence of a y-field for a y-requiring
chart type is prevented upstream, not validated: for every widget
selection, `render_chart_builder` stores the selected y value whenever
the chart descriptor has `needs_y` (and `None` otherwise), and in the
registry `needs_y` holds for every chart type except histogram. -/
theorem c2_builder_always_supplies_y (df : Table) (is_enhanced : Bool)
    (title ct x ySel aggSel : String) (showAdv : Bool) (colorSel orientSel : String)
    (d : ChartTypeDesc) (hd : lookupChartType ct = some d) :
    (build_chart_config df is_enhanced title ct x ySel aggSel showAdv colorSel orientSel).y_field
      = (if d.needs_y then DVal.val ySel else DVal.nil) ∧
    (∀ p ∈ CHART_TYPES, p.2.needs_y = true ↔ p.1 ≠ "histogram") := by
  refine ⟨?_, by decide⟩
  unfold build_chart_config
  simp [hd]

theorem c2_witness :
    (build_chart_config cTable2 false "t" "bar" "operator" "year" "count" false
        "None" "Horizontal").y_field
      = (if ({ label := "Bar Chart", needs_y := true, supports_orientation := true } :
          ChartTypeDesc).needs_y then DVal.val "year" else DVal.nil) ∧
    (∀ p ∈ CHART_TYPES, p.2.needs_y = true ↔ p.1 ≠ "histogram") :=
  c2_builder_always_supplies_y cTable2 false "t" "bar" "operator" "year" "count" false
    "None" "Horizontal" { label := "Bar Chart", needs_y := true, supports_orientation := true }
    (by decide)

/-- Claim C3 as frozen is false: a sunburst configuration with
`aggregation = 'none'` is not rejected — `prepare_chart_data` passes
the raw rows through and a chart specification is still produced. -/
theorem c3_counterexample :
    prepare_chart_data cTable3 cCfg3 = (some cTable3, cCfg3) ∧
    render_one cTable3 cCfg3 = ChartResult.chart
      { title := "Sunburst raw", values := some "fatalities_num", path := some ["operator"] } := by
  exact ⟨by decide, by decide⟩

/-- Claim C3 (amended): `aggregation = 'none'` makes
`prepare_chart_data` pass the raw rows through unchanged for every
chart type (no rejection anywhere); the builder UI merely never emits
`'none'` except for histogram, because the aggregation selectbox offers
only the `AGGREGATIONS` list. -/
theorem c3_none_passthrough_not_rejected (df : Table) (c : Config)
    (hn : c.aggregation.pyGet "count" = some "none")
    (df2 : Table) (is_enhanced : Bool) (title ct x ySel aggSel : String) (showAdv : Bool)
    (colorSel orientSel : String) (hAgg : aggSel ∈ AGGREGATIONS) :
    prepare_chart_data df c = (some df, c) ∧
    ((build_chart_config df2 is_enhanced title ct x ySel aggSel showAdv colorSel
        orientSel).aggregation = DVal.val "none" → ct = "histogram") := by
  constructor
  · simp [prepare_chart_data, hn]
  · intro hb
    unfold build_chart_config at hb
    simp only [DVal.val.injEq] at hb
    split_ifs at hb with h1 h2
    · rw [hb] at hAgg
      exact absurd hAgg (by decide)
    · exact h2
    · exact absurd hb (by decide)

theorem c3_witness :
    prepare_chart_data cTable3 cCfg3 = (some cTable3, cCfg3) ∧
    ((build_chart_config cTable2 false "h" "histogram" "operator" "year" "count" false
        "None" "Horizontal").aggregation = DVal.val "none" → "histogram" = "histogram") :=
  c3_none_passthrough_not_rejected cTable3 cCfg3 (by decide) cTable2 false "h" "histogram"
    "operator" "year" "count" false "None" "Horizontal" (by decide)

/-- Claim C5: on a non-empty table, for `pie` the spec labels the
x_field column (plotly `names`) and takes its values from the y_field
column, defaulting to the `count` column when the y_field key is unset;
for `sunburst`/`treemap` the spec's path is the single-element list
`[x_field]` and its values the y_field column, with no names/x/y
entries. -/
theorem c5_label_value_families (t : Table) (c : Config) (ht : t.rows.length ≠ 0) :
    (c.chart_type = "pie" → ∃ s, generate_chart (some t) c = ChartResult.chart s ∧
      s.names = some c.x_field ∧ s.path = none ∧ s.x = none ∧ s.y = none ∧
      (∀ y0, c.y_field = DVal.val y0 → s.values = some y0) ∧
      (c.y_field = DVal.absent → s.values = some "count")) ∧
    ((c.chart_type = "sunburst" ∨ c.chart_type = "treemap") →
      ∃ s, generate_chart (some t) c = ChartResult.chart s ∧
      s.path = some [c.x_field] ∧ s.names = none ∧ s.x = none ∧ s.y = none ∧
      (∀ y0, c.y_field = DVal.val y0 → s.values = some y0) ∧
      (c.y_field = DVal.absent → s.values = some "count")) := by
  constructor
  · intro hct
    have hmem : c.chart_type ∈ chartTypeKeys := by rw [hct]; decide
    have hg : generate_chart (some t) c = ChartResult.chart (buildSpec c) := by
      simp [generate_chart, ht, hmem]
    refine ⟨buildSpec c, hg, ?_, ?_, ?_, ?_, ?_, ?_⟩ <;>
      (intros
       unfold buildSpec
       split_ifs <;> simp_all [DVal.pyGet])
  · intro hct
    have hmem : c.chart_type ∈ chartTypeKeys := by
      rcases hct with h | h <;> rw [h] <;> decide
    have hg : generate_chart (some t) c = ChartResult.chart (buildSpec c) := by
      simp [generate_chart, ht, hmem]
    rcases hct with h | h <;>
      refine ⟨buildSpec c, hg, ?_, ?_, ?_, ?_, ?_, ?_⟩ <;>
        (intros
         unfold buildSpec
         split_ifs <;> simp_all [DVal.pyGet])

theorem c5_witness :
    (cfgPie.chart_type = "pie" → ∃ s, generate_chart (some cTable3) cfgPie = ChartResult.chart s ∧
      s.names = some cfgPie.x_field ∧ s.path = none ∧ s.x = none ∧ s.y = none ∧
      (∀ y0, cfgPie.y_field = DVal.val y0 → s.values = some y0) ∧
      (cfgPie.y_field = DVal.absent → s.values = some "count")) ∧
    ((cfgPie.chart_type = "sunburst" ∨ cfgPie.chart_type = "treemap") →
      ∃ s, generate_chart (some cTable3) cfgPie = ChartResult.chart s ∧
      s.path = some [cfgPie.x_field] ∧ s.names = none ∧ s.x = none ∧ s.y = none ∧
      (∀ y0, cfgPie.y_field = DVal.val y0 → s.values = some y0) ∧
      (cfgPie.y_field = DVal.absent → s.values = some "count")) :=
  c5_label_value_families cTable3 cfgPie (by decide)
